import Mathlib

/-!
Shallow embedding of the miLight adapter's property-change-to-command
translation engine (src/miLight-adapter.js): the command codec
(`levelToCmd`, `cssToCmd`), the fixed per-zone code tables, the property
store (`miLightProperty.setValue`), the device state machine
(`notifyStateChanged`, `notifyPropertyChanged`) and the transport sender
(`miLightAdapter.sendProperties`), together with theorems settling the
spec claims about them.

Modelling conventions:
* JS objects `{code, param}` become the structure `Cmd`; the empty object
  `{}` (and the result of `Object.assign({}, null)`) is `Option.none`.
* CSS color strings are represented by their parsed 24-bit `rgbNumber`
  (parsing is delegated in the source to the external `color` library).
* The sequential effects of one mutation are returned as the list of
  datagrams handed to the UDP socket, in order; a send scheduled behind
  the `sleep(100)` promise is tagged `delayed`.
-/

namespace MiLight

/-- A wire command as built by the codec: a JS object with `code` and
`param` fields. -/
structure Cmd where
  code : Nat
  param : Nat
deriving DecidableEq, Repr

/-- `Math.round (n / 4)` for a natural `n`: JavaScript rounds halves up,
which on naturals is `(n + 2) / 4` with truncating division. -/
def jsRound4 (n : Nat) : Nat := (n + 2) / 4

/-- `levelToCmd(level, zone)` from the source: a positive level yields the
generic dim code `0x4E` with `param = Math.round(level / 4)`; level `0`
yields the empty object (no fields), modelled as `none`. The `zone`
argument is unused by the source function. -/
def levelToCmd (level : Nat) (zone : Nat) : Option Cmd :=
  if level > 0 then
    some { code := 0x4E, param := jsRound4 level }
  else
    none

/-- The per-zone white command codes, `whiteCodes` in the source. -/
def whiteCodes : List Nat := [0xC2, 0xC5, 0xC7, 0xC9, 0xCB]

/-- The per-zone power-on command codes, `onCodes` in the source. -/
def onCodes : List Nat := [0x42, 0x45, 0x47, 0x49, 0x4B]

/-- The per-zone power-off command codes, `offCodes` in the source. -/
def offCodes : List Nat := [0x41, 0x46, 0x48, 0x4A, 0x4C]

/-- `cssToCmd(cssColor, zone)` from the source, applied to the parsed
24-bit `rgbNumber` of the css color. The switch maps the ten palette
entries to fixed `{code, param}` pairs, white going through the per-zone
`whiteCodes` table; black and every other rgb value fall to `null`. -/
def cssToCmd (rgb : Nat) (zone : Nat) : Option Cmd :=
  if rgb = 0x000000 then none
  else if rgb = 0x000080 then some { code := 0x40, param := 0x00 }
  else if rgb = 0x0000FF then some { code := 0x40, param := 0xBA }
  else if rgb = 0x008000 then some { code := 0x40, param := 0x7A }
  else if rgb = 0x00FF00 then some { code := 0x40, param := 0x54 }
  else if rgb = 0x00FFFF then some { code := 0x40, param := 0x85 }
  else if rgb = 0x800080 then some { code := 0x40, param := 0xD9 }
  else if rgb = 0xFF0000 then some { code := 0x40, param := 0xFF }
  else if rgb = 0xFFA500 then some { code := 0x40, param := 0x1E }
  else if rgb = 0xFFFF00 then some { code := 0x40, param := 0x3B }
  else if rgb = 0xFFFFFF then some { code := whiteCodes.getD zone 0, param := 0x00 }
  else none

/-- The mutable state of one `miLightDevice`: the cached values of its
three properties, its configured zone, and the debounce flag
`recentlyUpdated` set by `sendProperties`. -/
structure DeviceState where
  isOn : Bool
  level : Nat
  color : Nat
  zone : Nat
  recentlyUpdated : Bool
deriving DecidableEq, Repr

/-- A datagram handed to the UDP socket during one mutation: either sent
immediately, or scheduled behind the `sleep(100)` promise. -/
inductive SendEvt where
  | immediate : List Nat → SendEvt
  | delayed : List Nat → SendEvt
deriving DecidableEq, Repr

/-- `Buffer.from([cmd.code, cmd.param, 0x55])`: each entry is coerced to a
byte. A missing field (the empty object left by `Object.assign` with a
`null` source) reads as `undefined`, which `Buffer.from` coerces to `0`. -/
def serialize (cmd : Option Cmd) : List Nat :=
  match cmd with
  | some c => [c.code % 256, c.param % 256, 0x55]
  | none => [0, 0, 0x55]

/-- `miLightAdapter.sendProperties(deviceId, cmd)`: set the device's
debounce flag `recentlyUpdated`, then hand the 3-byte datagram to the
socket. The returned state is the device state at the moment the datagram
is given to the socket. -/
def sendProperties (st : DeviceState) (cmd : Option Cmd) : DeviceState × List Nat :=
  ({ st with recentlyUpdated := true }, serialize cmd)

/-- The names of the three properties a `miLightDevice` owns
(the source dispatches on the strings `'color'`, `'level'`, `'on'`). -/
inductive PropName where
  | pColor : PropName
  | pLevel : PropName
  | pOn : PropName
deriving DecidableEq, Repr

/-- `miLightDevice.notifyStateChanged(property)`, reached when the `'on'`
property changed: send the per-zone off code when the committed value is
`false`, the per-zone on code otherwise, with param `0x00`. -/
def notifyStateChanged (st : DeviceState) : DeviceState × List SendEvt :=
  let cmd : Cmd :=
    { code := if st.isOn = false then offCodes.getD st.zone 0 else onCodes.getD st.zone 0,
      param := 0x00 }
  let r := sendProperties st (some cmd)
  (r.1, [SendEvt.immediate r.2])

/-- `miLightProperty.setValue(value)` on the `'on'` property: change
detection with strict inequality against the cached value, unconditional
commit via `setCachedValue`, then `notifyStateChanged` only on change. -/
def setOn (st : DeviceState) (v : Bool) : DeviceState × List SendEvt :=
  let st1 := { st with isOn := v }
  if st.isOn = v then (st1, []) else notifyStateChanged st1

/-- `miLightDevice.notifyPropertyChanged(property)`: dispatch on the
property name. `'color'` passes `cssToCmd` of the committed color to
`sendProperties` unconditionally — also when `cssToCmd` returned `null`,
in which case `Object.assign` leaves `cmd` the empty object. A committed
level of `0` drives the `'on'` property to `false` instead of sending; a
positive level sends the dim command, preceded by the power-on command
and a `sleep(100)` delay when the device was off. Any other name is
logged and ignored. -/
def notifyPropertyChanged (st : DeviceState) (name : PropName) : DeviceState × List SendEvt :=
  match name with
  | PropName.pColor =>
    let r := sendProperties st (cssToCmd st.color st.zone)
    (r.1, [SendEvt.immediate r.2])
  | PropName.pLevel =>
    if st.level = 0 then
      setOn st false
    else
      let cmd := levelToCmd st.level st.zone
      if st.isOn = false then
        let r1 := setOn st true
        let r2 := sendProperties r1.1 cmd
        (r2.1, r1.2 ++ [SendEvt.delayed r2.2])
      else
        let r := sendProperties st cmd
        (r.1, [SendEvt.immediate r.2])
  | PropName.pOn => (st, [])

/-- `miLightProperty.setValue(value)` on the `'level'` property: strict
inequality change detection, unconditional commit, then
`notifyPropertyChanged` only on change. The promise resolves with
`this.value` read after the notification ran, which is the `level` field
of the returned state. -/
def setLevel (st : DeviceState) (v : Nat) : DeviceState × List SendEvt :=
  let st1 := { st with level := v }
  if st.level = v then (st1, []) else notifyPropertyChanged st1 PropName.pLevel

/-- `miLightProperty.setValue(value)` on the `'color'` property (the value
represented by its parsed rgb number): strict inequality change detection,
unconditional commit, then `notifyPropertyChanged` only on change. -/
def setColor (st : DeviceState) (rgb : Nat) : DeviceState × List SendEvt :=
  let st1 := { st with color := rgb }
  if st.color = rgb then (st1, []) else notifyPropertyChanged st1 PropName.pColor

lemma onCodes_getD_mod : ∀ z : Nat, onCodes.getD z 0 % 256 = onCodes.getD z 0
  | 0 => rfl
  | 1 => rfl
  | 2 => rfl
  | 3 => rfl
  | 4 => rfl
  | _ + 5 => rfl

lemma offCodes_getD_mod : ∀ z : Nat, offCodes.getD z 0 % 256 = offCodes.getD z 0
  | 0 => rfl
  | 1 => rfl
  | 2 => rfl
  | 3 => rfl
  | 4 => rfl
  | _ + 5 => rfl

lemma onCodes_getD_lt : ∀ z : Nat, onCodes.getD z 0 < 256
  | 0 => by decide
  | 1 => by decide
  | 2 => by decide
  | 3 => by decide
  | 4 => by decide
  | _ + 5 => of_decide_eq_true rfl

lemma offCodes_getD_lt : ∀ z : Nat, offCodes.getD z 0 < 256
  | 0 => by decide
  | 1 => by decide
  | 2 => by decide
  | 3 => by decide
  | 4 => by decide
  | _ + 5 => of_decide_eq_true rfl

lemma onCodes_getElem_lt (z : Nat) : onCodes[z]?.getD 0 < 256 := by
  have := onCodes_getD_lt z
  simpa [List.getD_eq_getElem?_getD] using this

lemma offCodes_getElem_lt (z : Nat) : offCodes[z]?.getD 0 < 256 := by
  have := offCodes_getD_lt z
  simpa [List.getD_eq_getElem?_getD] using this

/-- C1. The spec claims an out-of-palette color (such as `#123456`) causes
no command to be sent. In the code, `cssToCmd` does return `null`, but
`notifyPropertyChanged` passes the result through `Object.assign` and
calls `sendProperties` unconditionally, so the socket is handed the
degenerate datagram `[0x00, 0x00, 0x55]` (the missing fields coerce to 0)
and the debounce flag is armed. This theorem evaluates the code at the
failing input; no error is raised (the model is total), but a command is
sent. -/
theorem c1_out_of_palette_sends_datagram :
    cssToCmd 0x123456 0 = none ∧
    setColor { isOn := true, level := 50, color := 0xFFFFFF, zone := 0, recentlyUpdated := false }
        0x123456 =
      ({ isOn := true, level := 50, color := 0x123456, zone := 0, recentlyUpdated := true },
       [SendEvt.immediate [0x00, 0x00, 0x55]]) := by
  decide

/-- C2 counterexample. The claim says level 0 yields a dedicated off code
with param 0, level 100 a dedicated full-on code with param 0, and other
levels a param in `[1,25]`. The code returns no command at all at level 0,
the generic dim code `0x4E` with param 25 at level 100, and param 0 at
level 1. -/
theorem c2_counterexample :
    levelToCmd 0 0 = none ∧
    levelToCmd 100 0 = some { code := 0x4E, param := 25 } ∧
    levelToCmd 1 0 = some { code := 0x4E, param := 0 } := by
  decide

/-- C2 amended: for every level in `[0,100]` and every zone, level 0
yields no command (the empty object), and every positive level yields the
generic dim code `0x4E` with param `Math.round(level / 4)`, which lies in
`[0,25]`; level 100 is not special-cased. -/
theorem c2_levelToCmd_amended (level zone : Nat) (h : level ≤ 100) :
    levelToCmd level zone =
      (if level = 0 then none else some { code := 0x4E, param := jsRound4 level }) ∧
    jsRound4 level ≤ 25 := by
  constructor
  · unfold levelToCmd
    rcases Nat.eq_zero_or_pos level with h0 | h0
    · simp [h0]
    · simp [h0, Nat.pos_iff_ne_zero.mp h0]
  · unfold jsRound4
    omega

theorem c2_witness :
    levelToCmd 50 0 =
      (if (50 : Nat) = 0 then none else some { code := 0x4E, param := jsRound4 50 }) ∧
    jsRound4 50 ≤ 25 :=
  c2_levelToCmd_amended 50 0 (by decide)

/-- C3 counterexample. The claim says every accepted (value-changing)
mutation sends exactly one command or the delayed pair. Setting level
from 30 to 0 while the device is already off is a value-changing mutation
that sends zero commands: the level handler merely sets the `on` property
to `false`, which is already its value, so no notification and no send
follow. -/
theorem c3_counterexample :
    (30 : Nat) ≠ 0 ∧
    setLevel { isOn := false, level := 30, color := 0xFFFFFF, zone := 0, recentlyUpdated := false }
        0 =
      ({ isOn := false, level := 0, color := 0xFFFFFF, zone := 0, recentlyUpdated := false },
       []) := by
  decide

/-- C3 amended: a no-op mutation sends zero commands; an accepted `on` or
`color` mutation sends exactly one command (for color even when the value
is out of palette); an accepted `level` mutation sends exactly one
command, except that changing level to 0 while `on` is already false
sends zero commands, and changing level to a positive value while the
device is off sends exactly the delayed pair: the power-on command
immediately, then the dim command after the delay. -/
theorem c3_command_count_amended (st : DeviceState) (b : Bool) (v rgb : Nat) :
    ((setOn st b).2.length = if st.isOn = b then 0 else 1) ∧
    ((setColor st rgb).2.length = if st.color = rgb then 0 else 1) ∧
    ((setLevel st v).2.length =
      if st.level = v then 0
      else if v = 0 then (if st.isOn then 1 else 0)
      else if st.isOn then 1 else 2) ∧
    (st.level ≠ v → v ≠ 0 → st.isOn = false →
      (setLevel st v).2 =
        [SendEvt.immediate [onCodes.getD st.zone 0, 0x00, 0x55],
         SendEvt.delayed [0x4E, jsRound4 v % 256, 0x55]]) := by
  obtain ⟨o, l, c, z, ru⟩ := st
  refine ⟨?_, ?_, ?_, ?_⟩
  · simp only [setOn, notifyStateChanged, sendProperties]
    split_ifs <;> simp
  · simp only [setColor, notifyPropertyChanged, sendProperties]
    split_ifs <;> simp
  · simp only [setLevel, notifyPropertyChanged, setOn, notifyStateChanged, sendProperties]
    split_ifs <;> simp_all
  · intro hch hv ho
    simp only at ho
    subst ho
    have hpos : 0 < v := Nat.pos_of_ne_zero hv
    simp only [setLevel, notifyPropertyChanged, setOn, notifyStateChanged, sendProperties,
      serialize, levelToCmd]
    simp_all [onCodes_getElem_lt z]

theorem c3_witness :
    (setLevel { isOn := false, level := 10, color := 7, zone := 0, recentlyUpdated := false }
        50).2 =
      [SendEvt.immediate [onCodes.getD 0 0, 0x00, 0x55],
       SendEvt.delayed [0x4E, jsRound4 50 % 256, 0x55]] :=
  (c3_command_count_amended
      { isOn := false, level := 10, color := 7, zone := 0, recentlyUpdated := false }
      true 50 5).2.2.2 (by decide) (by decide) rfl

lemma onCodes_getElem_mod (z : Nat) : onCodes[z]?.getD 0 % 256 = onCodes[z]?.getD 0 :=
  Nat.mod_eq_of_lt (onCodes_getElem_lt z)

lemma offCodes_getElem_mod (z : Nat) : offCodes[z]?.getD 0 % 256 = offCodes[z]?.getD 0 :=
  Nat.mod_eq_of_lt (offCodes_getElem_lt z)

/-- C4. From `on = false, level = 0`, setting level to 50 first sends the
per-zone power-on datagram `[onCodes[zone], 0x00, 0x55]`, then after the
`sleep(100)` delay the dim datagram `[0x4E, 13, 0x55]`
(`Math.round(50 / 4) = 13`), and the property store afterwards reads
`on = true`, `level = 50`. Proved for every zone (out-of-range zones read
the table's default) and every cached color and debounce flag. -/
theorem c4_implicit_power_on_scenario (zone colorv : Nat) (ru : Bool) :
    setLevel { isOn := false, level := 0, color := colorv, zone := zone, recentlyUpdated := ru }
        50 =
      ({ isOn := true, level := 50, color := colorv, zone := zone, recentlyUpdated := true },
       [SendEvt.immediate [onCodes.getD zone 0, 0x00, 0x55],
        SendEvt.delayed [0x4E, 13, 0x55]]) := by
  simp [setLevel, notifyPropertyChanged, setOn, notifyStateChanged, sendProperties, serialize,
    levelToCmd, jsRound4, onCodes_getD_mod zone, onCodes_getElem_mod zone]

/-- C5. With the device on and a nonzero cached level, setting level to 0
drives the `on` property to `false` and sends exactly the per-zone off
datagram `[offCodes[zone], 0x00, 0x55]`; no level command is sent. -/
theorem c5_level_zero_turns_off (st : DeviceState) (hon : st.isOn = true)
    (hlv : st.level ≠ 0) :
    setLevel st 0 =
      ({ st with isOn := false, level := 0, recentlyUpdated := true },
       [SendEvt.immediate [offCodes.getD st.zone 0, 0x00, 0x55]]) := by
  obtain ⟨o, l, c, z, ru⟩ := st
  simp only at hon hlv
  subst hon
  simp [setLevel, notifyPropertyChanged, setOn, notifyStateChanged, sendProperties, serialize,
    hlv, offCodes_getD_mod z, offCodes_getElem_mod z]

theorem c5_witness :
    setLevel { isOn := true, level := 30, color := 0xFFFFFF, zone := 2, recentlyUpdated := false }
        0 =
      ({ isOn := false, level := 0, color := 0xFFFFFF, zone := 2, recentlyUpdated := true },
       [SendEvt.immediate [offCodes.getD 2 0, 0x00, 0x55]]) :=
  c5_level_zero_turns_off
    { isOn := true, level := 30, color := 0xFFFFFF, zone := 2, recentlyUpdated := false }
    rfl (by decide)

/-- C6. Setting any of the three properties to its current cached value is
a no-op: the state is unchanged and no datagram is handed to the socket
(the strict-inequality change detection in `setValue` skips the
notification, which is the only path to a send). -/
theorem c6_idempotent_set (st : DeviceState) :
    setOn st st.isOn = (st, []) ∧ setLevel st st.level = (st, []) ∧
    setColor st st.color = (st, []) := by
  refine ⟨?_, ?_, ?_⟩ <;> simp [setOn, setLevel, setColor]

set_option maxHeartbeats 2000000 in
/-- C7. White (`0xFFFFFF`) resolves through the per-zone table
`whiteCodes = [0xC2, 0xC5, 0xC7, 0xC9, 0xCB]` with param 0; red
(`0xFF0000`) resolves to code `0x40` with param `0xFF` for every zone; and
every rgb value other than white resolves independently of the zone. -/
theorem c7_white_per_zone_red_fixed (z : Nat) (hz : z ≤ 4) :
    cssToCmd 0xFFFFFF z =
      some { code := [0xC2, 0xC5, 0xC7, 0xC9, 0xCB].getD z 0, param := 0x00 } ∧
    (∀ z2, z2 ≤ 4 → cssToCmd 0xFF0000 z2 = some { code := 0x40, param := 0xFF }) ∧
    (∀ rgb z2, rgb ≠ 0xFFFFFF → cssToCmd rgb z = cssToCmd rgb z2) := by
  refine ⟨?_, ?_, ?_⟩
  · interval_cases z <;> decide
  · intro z2 _
    rfl
  · intro rgb z2 h
    unfold cssToCmd
    split_ifs <;> rfl

theorem c7_witness :
    cssToCmd 0xFFFFFF 3 =
      some { code := [0xC2, 0xC5, 0xC7, 0xC9, 0xCB].getD 3 0, param := 0x00 } ∧
    cssToCmd 0xFF0000 3 = some { code := 0x40, param := 0xFF } ∧
    cssToCmd 0x0000FF 3 = cssToCmd 0x0000FF 0 :=
  ⟨(c7_white_per_zone_red_fixed 3 (by decide)).1,
   (c7_white_per_zone_red_fixed 3 (by decide)).2.1 3 (by decide),
   (c7_white_per_zone_red_fixed 3 (by decide)).2.2 0x0000FF 0 (by decide)⟩

/-- C8. The `setValue` contract, for each of the three properties: the
cache is updated unconditionally (the final state stores the requested
value, which is also what `resolve(this.value)` returns, read after the
notification); a set to the current value fires no notification and
changes nothing; and when the compared values differ (strict inequality),
the behaviour is exactly the notification run on the already-committed
state — so a re-entrant read during the notification sees the new
value. -/
theorem c8_setValue_contract (st : DeviceState) (b : Bool) (v rgb : Nat) :
    (setLevel st v).1.level = v ∧
    (setOn st b).1.isOn = b ∧
    (setColor st rgb).1.color = rgb ∧
    setLevel st st.level = (st, []) ∧
    setOn st st.isOn = (st, []) ∧
    setColor st st.color = (st, []) ∧
    (st.level ≠ v → setLevel st v = notifyPropertyChanged { st with level := v } PropName.pLevel) ∧
    (st.isOn ≠ b → setOn st b = notifyStateChanged { st with isOn := b }) ∧
    (st.color ≠ rgb →
      setColor st rgb = notifyPropertyChanged { st with color := rgb } PropName.pColor) := by
  obtain ⟨o, l, c, z, ru⟩ := st
  refine ⟨?_, ?_, ?_, ?_, ?_, ?_, ?_, ?_, ?_⟩
  · simp only [setLevel, notifyPropertyChanged, setOn, notifyStateChanged, sendProperties]
    split_ifs <;> simp_all
  · simp only [setOn, notifyStateChanged, sendProperties]
    split_ifs <;> simp_all
  · simp only [setColor, notifyPropertyChanged, sendProperties]
    split_ifs <;> simp_all
  · simp [setLevel]
  · simp [setOn]
  · simp [setColor]
  · intro h
    simp only at h
    simp [setLevel, h]
  · intro h
    simp only at h
    simp [setOn, h]
  · intro h
    simp only at h
    simp [setColor, h]

theorem c8_witness :
    (setLevel { isOn := true, level := 20, color := 9, zone := 1, recentlyUpdated := false }
        60).1.level = 60 ∧
    setLevel { isOn := true, level := 20, color := 9, zone := 1, recentlyUpdated := false } 60 =
      notifyPropertyChanged
        { isOn := true, level := 60, color := 9, zone := 1, recentlyUpdated := false }
        PropName.pLevel ∧
    setOn { isOn := true, level := 20, color := 9, zone := 1, recentlyUpdated := false } false =
      notifyStateChanged
        { isOn := false, level := 20, color := 9, zone := 1, recentlyUpdated := false } :=
  ⟨(c8_setValue_contract
      { isOn := true, level := 20, color := 9, zone := 1, recentlyUpdated := false }
      false 60 5).1,
   (c8_setValue_contract
      { isOn := true, level := 20, color := 9, zone := 1, recentlyUpdated := false }
      false 60 5).2.2.2.2.2.2.1 (by decide),
   (c8_setValue_contract
      { isOn := true, level := 20, color := 9, zone := 1, recentlyUpdated := false }
      false 60 5).2.2.2.2.2.2.2.1 (by decide)⟩

/-- C9. Whenever `sendProperties` runs for a device, the device's
debounce flag `recentlyUpdated` (the spec's suppress-next-update flag) is
true in the state in which the datagram is handed to the socket, for any
command object; and the datagram for a `{code, param}` command is exactly
the 3 bytes `[code, param, 0x55]` (each coerced to a byte). -/
theorem c9_sendProperties_flag (st : DeviceState) (c : Cmd) :
    (∀ cmd : Option Cmd, (sendProperties st cmd).1.recentlyUpdated = true) ∧
    (sendProperties st (some c)).2 = [c.code % 256, c.param % 256, 0x55] :=
  ⟨fun _ => rfl, rfl⟩

/-- C10. For every positive level in the domain and any two zones,
`levelToCmd` returns the identical command — the zone argument is unused —
namely the generic dim code `0x4E` with param `Math.round(level / 4)`. -/
theorem c10_levelToCmd_zone_independent (level z1 z2 : Nat) (h0 : 0 < level)
    (h : level ≤ 100) :
    levelToCmd level z1 = levelToCmd level z2 ∧
    levelToCmd level z1 = some { code := 0x4E, param := jsRound4 level } := by
  unfold levelToCmd
  simp [h0]

theorem c10_witness :
    levelToCmd 50 0 = levelToCmd 50 4 ∧
    levelToCmd 50 0 = some { code := 0x4E, param := jsRound4 50 } :=
  c10_levelToCmd_zone_independent 50 0 4 (by decide) (by decide)

end MiLight
